import Mathlib

/-!
# Money Tracker backend — shallow embedding

A shallow embedding of the Money Tracker backend (`src/backend/database.py`,
`src/backend/main.py`, `src/backend/redis_client.py`) and proofs about its
ledger engine, category resolution, transfer handling and rate limiter.

Modelling conventions:
* Monetary values are modelled as `Int`.  The backend stores them as floats
  but only ever adds, subtracts, negates and compares them (no division or
  rounding), so integer arithmetic is exact for every scenario treated here.
* The SQLAlchemy session is modelled by explicit state passing: every
  endpoint takes a `DB` and returns `Except ApiError (DB × result)`.  The
  `DB` inside `.ok` is the state after `db.commit()`; an `.error` result
  models `raise HTTPException` after `db.rollback()` (or with no commit
  reached), i.e. the committed state stays the input `DB`.
* Timestamps are opaque `Nat` values; `datetime.utcnow()` becomes an explicit
  `now` argument.
* Row ids are handed out from `next…Id` counters, modelling the serial
  primary keys assigned at flush time.
-/

/-- Model of `database.Account` (`src/backend/database.py`). -/
structure Account where
  id : Nat
  name : String
  balance : Int
  account_type : String
  credit_limit : Int
deriving Repr, DecidableEq

/-- Model of `database.Category` (`src/backend/database.py`).  `type` is nullable;
`parent_id` is a nullable self-reference. -/
structure Category where
  id : Nat
  name : String
  type : Option String
  parent_id : Option Nat
deriving Repr, DecidableEq

/-- Model of `database.Transaction` (`src/backend/database.py`). -/
structure Transaction where
  id : Nat
  amount : Int
  description : Option String
  account_id : Nat
  category_id : Option Nat
  is_transfer : Bool
  transfer_pair_id : Option Nat
  created_at : Nat
deriving Repr, DecidableEq

/-- The persistent store: the three tables plus the id sequences. -/
structure DB where
  accounts : List Account
  categories : List Category
  transactions : List Transaction
  nextAccountId : Nat
  nextCategoryId : Nat
  nextTxnId : Nat
deriving Repr, DecidableEq

/-- Errors surfaced by the endpoints: `HTTPException(404, …)`,
`HTTPException(400, …)`, and an unhandled exception (HTTP 500). -/
inductive ApiError where
  | notFound (detail : String)
  | badRequest (detail : String)
  | serverError
deriving Repr, DecidableEq

/-- Models `db.query(Account).filter(Account.id == i).first()`. -/
def findAccount (db : DB) (i : Nat) : Option Account :=
  db.accounts.find? (fun a => a.id == i)

/-- Models `db.query(Category).filter(Category.id == i).first()`. -/
def findCategory (db : DB) (i : Nat) : Option Category :=
  db.categories.find? (fun c => c.id == i)

/-- Category lookup by a nullable id: `filter(Category.id == None)` matches
no row, so a `none` id yields `none`. -/
def findCategoryOpt (db : DB) : Option Nat → Option Category
  | some j => findCategory db j
  | none => none

/-- Models `db.query(Transaction).filter(Transaction.id == i).first()`. -/
def findTransaction (db : DB) (i : Nat) : Option Transaction :=
  db.transactions.find? (fun t => t.id == i)

/-- Transaction lookup by a nullable id (used for `transfer_pair_id`). -/
def findTransactionOpt (db : DB) : Option Nat → Option Transaction
  | some j => findTransaction db j
  | none => none

/-- Python truthiness of a nullable string: `None` and `""` are falsy. -/
def truthyStr : Option String → Bool
  | none => false
  | some s => !(s == "")

/-- Python truthiness of a nullable integer: `None` and `0` are falsy. -/
def truthyNat : Option Nat → Bool
  | none => false
  | some n => !(n == 0)

/-- Helper `get_category_type` (`src/backend/main.py`): own type if truthy, else the
parent's type (or `"expense"` when the parent's type is falsy), else
`"expense"`. -/
def get_category_type (db : DB) (category : Category) : String :=
  if truthyStr category.type then category.type.getD ""
  else
    match findCategoryOpt db category.parent_id with
    | some parent => if truthyStr parent.type then parent.type.getD "" else "expense"
    | none => "expense"

/-- Apply `f` to every account row whose id is `i` (in-place mutation of the
looked-up ORM object, as seen at commit time). -/
def mapAccount (db : DB) (i : Nat) (f : Account → Account) : DB :=
  { db with accounts := db.accounts.map (fun a => if a.id == i then f a else a) }

/-- Assignment `account.balance = b`. -/
def setBalance (db : DB) (i : Nat) (b : Int) : DB :=
  mapAccount db i (fun a => { a with balance := b })

/-- Assignment `account.balance += d`. -/
def addBalance (db : DB) (i : Nat) (d : Int) : DB :=
  mapAccount db i (fun a => { a with balance := a.balance + d })

/-- Apply `f` to every transaction row whose id is `i`. -/
def mapTxn (db : DB) (i : Nat) (f : Transaction → Transaction) : DB :=
  { db with transactions := db.transactions.map (fun t => if t.id == i then f t else t) }

/-- Models `db.delete(txn)` for the row with id `i`. -/
def removeTxn (db : DB) (i : Nat) : DB :=
  { db with transactions := db.transactions.filter (fun t => !(t.id == i)) }

/-- The committed state produced by an endpoint call: the new state on
success, the unchanged input state on rollback/abort. -/
def commitOf {α : Type} (db : DB) (r : Except ApiError (DB × α)) : DB :=
  match r with
  | .ok (db', _) => db'
  | .error _ => db

/-- Whether an endpoint call succeeded. -/
def exceptOk {α : Type} : Except ApiError α → Bool
  | .ok _ => true
  | .error _ => false

/-- Model of `schemas.AccountCreate`. -/
structure AccountCreate where
  name : String
  balance : Int := 0
  account_type : String := "cash"
  credit_limit : Int := 0
deriving Repr, DecidableEq

/-- Endpoint `POST /accounts/` — `create_account` (`src/backend/main.py`).  The store's
unique-name constraint is not modelled (all scenarios here use distinct
names). -/
def create_account (db : DB) (account : AccountCreate) :
    Except ApiError (DB × Account) :=
  if ¬(account.account_type = "cash" ∨ account.account_type = "debit" ∨
      account.account_type = "credit") then
    .error (.badRequest "Account type must be: cash, debit, or credit")
  else if account.account_type = "credit" ∧ account.credit_limit ≤ 0 then
    .error (.badRequest "Credit limit must be greater than 0")
  else
    let a : Account :=
      { id := db.nextAccountId, name := account.name, balance := account.balance,
        account_type := account.account_type, credit_limit := account.credit_limit }
    .ok ({ db with
           accounts := db.accounts ++ [a],
           nextAccountId := db.nextAccountId + 1 }, a)

/-- Endpoint `PUT /accounts/{id}` — `update_account` (`src/backend/main.py`): full
overwrite of name, balance, type and limit, with no balance validation. -/
def update_account (db : DB) (account_id : Nat) (u : AccountCreate) :
    Except ApiError (DB × Account) :=
  match findAccount db account_id with
  | none => .error (.notFound "Account not found")
  | some a =>
    if ¬(u.account_type = "cash" ∨ u.account_type = "debit" ∨
        u.account_type = "credit") then
      .error (.badRequest "Account type must be: cash, debit, or credit")
    else
      let a' : Account :=
        { a with
          name := u.name, balance := u.balance,
          account_type := u.account_type, credit_limit := u.credit_limit }
      .ok (mapAccount db account_id (fun b =>
        { b with
          name := u.name, balance := u.balance,
          account_type := u.account_type, credit_limit := u.credit_limit }), a')

/-- Model of `schemas.CategoryCreate`. -/
structure CategoryCreate where
  name : String
  type : Option String := some "expense"
  parent_id : Option Nat := none
deriving Repr, DecidableEq

/-- Endpoint `POST /categories/` — `create_category` (`src/backend/main.py`).  A truthy
`parent_id` must resolve to a root category; a child's stored type is
`None`. -/
def create_category (db : DB) (category : CategoryCreate) :
    Except ApiError (DB × Category) :=
  if truthyNat category.parent_id then
    match findCategoryOpt db category.parent_id with
    | none => .error (.notFound "Parent category not found")
    | some parent =>
      if truthyNat parent.parent_id then
        .error (.badRequest "Subcategories can only be 1 level deep")
      else
        let c : Category :=
          { id := db.nextCategoryId, name := category.name, type := none,
            parent_id := category.parent_id }
        .ok ({ db with
               categories := db.categories ++ [c],
               nextCategoryId := db.nextCategoryId + 1 }, c)
  else
    let c : Category :=
      { id := db.nextCategoryId, name := category.name, type := category.type,
        parent_id := category.parent_id }
    .ok ({ db with
           categories := db.categories ++ [c],
           nextCategoryId := db.nextCategoryId + 1 }, c)

/-- Model of `schemas.TransactionCreate`. -/
structure TransactionCreate where
  amount : Int
  description : Option String := none
  account_id : Nat
  category_id : Option Nat := none
  created_at : Option Nat := none
deriving Repr, DecidableEq

/-- Endpoint `POST /transactions/` — `create_transaction` (`src/backend/main.py`).
Expense: debit the account, guarded by the credit-limit check (credit
accounts) or the non-negative check (all other account types).  Income:
credit the account unconditionally.  Then insert the row. -/
def create_transaction (db : DB) (transaction : TransactionCreate) (now : Nat) :
    Except ApiError (DB × Transaction) :=
  match findAccount db transaction.account_id,
        findCategoryOpt db transaction.category_id with
  | some account, some category =>
    let cat_type := get_category_type db category
    let step : Except ApiError DB :=
      if cat_type = "expense" then
        let new_balance := account.balance - transaction.amount
        if account.account_type = "credit" then
          if |new_balance| > account.credit_limit then
            .error (.badRequest "Credit limit exceeded")
          else .ok (setBalance db transaction.account_id new_balance)
        else if new_balance < 0 then
          .error (.badRequest "Insufficient funds")
        else .ok (setBalance db transaction.account_id new_balance)
      else if cat_type = "income" then
        .ok (addBalance db transaction.account_id transaction.amount)
      else .ok db
    match step with
    | .error e => .error e
    | .ok db1 =>
      let t : Transaction :=
        { id := db1.nextTxnId, amount := transaction.amount,
          description := transaction.description,
          account_id := transaction.account_id,
          category_id := transaction.category_id,
          is_transfer := false, transfer_pair_id := none,
          created_at := transaction.created_at.getD now }
      .ok ({ db1 with
             transactions := db1.transactions ++ [t],
             nextTxnId := db1.nextTxnId + 1 }, t)
  | _, _ => .error (.notFound "Account or Category not found")

/-- Model of `schemas.TransactionUpdate` — every field optional. -/
structure TransactionUpdate where
  amount : Option Int := none
  description : Option String := none
  account_id : Option Nat := none
  category_id : Option Nat := none
  created_at : Option Nat := none
deriving Repr, DecidableEq

/-- The field-merge step of `update_transaction`: each provided patch field
overwrites the stored one. -/
def mergeTxn (txn : Transaction) (update : TransactionUpdate) : Transaction :=
  { txn with
    amount := update.amount.getD txn.amount,
    description := match update.description with
      | some d => some d
      | none => txn.description,
    created_at := update.created_at.getD txn.created_at,
    account_id := update.account_id.getD txn.account_id,
    category_id := match update.category_id with
      | some c => some c
      | none => txn.category_id }

/-- The reversal step of `update_transaction` (lines 395–402 of
`src/backend/main.py`): resolve the old category's effective type with
current data (defaulting to `"expense"` when the category is gone or null)
and undo the old balance effect on the old account.  Touching a missing
account raises `AttributeError` (HTTP 500, nothing committed). -/
def reverseOld (db : DB) (txn : Transaction) : Except ApiError DB :=
  let old_type :=
    match findCategoryOpt db txn.category_id with
    | some old_category => get_category_type db old_category
    | none => "expense"
  if old_type = "expense" then
    match findAccount db txn.account_id with
    | none => .error .serverError
    | some _ => .ok (addBalance db txn.account_id txn.amount)
  else if old_type = "income" then
    match findAccount db txn.account_id with
    | none => .error .serverError
    | some _ => .ok (addBalance db txn.account_id (-txn.amount))
  else .ok db

/-- Endpoint `PUT /transactions/{id}` — `update_transaction` (`src/backend/main.py`):
reverse the old effect, merge the patch, re-resolve account/category, apply
the new effect with the same checks as creation; any failure rolls the whole
operation back. -/
def update_transaction (db : DB) (transaction_id : Nat)
    (update : TransactionUpdate) : Except ApiError (DB × Transaction) :=
  match findTransaction db transaction_id with
  | none => .error (.notFound "Transaction not found")
  | some txn =>
    match reverseOld db txn with
    | .error e => .error e
    | .ok db1 =>
      let txn' := mergeTxn txn update
      match findAccount db1 txn'.account_id, findCategoryOpt db1 txn'.category_id with
      | some new_account, some new_category =>
        let new_type := get_category_type db1 new_category
        if new_type = "expense" then
          let new_balance := new_account.balance - txn'.amount
          if new_account.account_type = "credit" then
            if |new_balance| > new_account.credit_limit then
              .error (.badRequest "Credit limit exceeded")
            else
              .ok (mapTxn (setBalance db1 txn'.account_id new_balance)
                    transaction_id (fun _ => txn'), txn')
          else if new_balance < 0 then
            .error (.badRequest "Insufficient funds")
          else
            .ok (mapTxn (setBalance db1 txn'.account_id new_balance)
                  transaction_id (fun _ => txn'), txn')
        else if new_type = "income" then
          .ok (mapTxn (addBalance db1 txn'.account_id txn'.amount)
                transaction_id (fun _ => txn'), txn')
        else
          .ok (mapTxn db1 transaction_id (fun _ => txn'), txn')
      | _, _ => .error (.notFound "Account or Category not found")

/-- The marker test of the transfer-delete logic:
`"→" in (txn.description or "")`.  The needle is a single character, so the
substring test is character membership. -/
def descrHasOutArrow (d : Option String) : Bool :=
  (d.getD "").data.contains '→'

/-- Endpoint `DELETE /transactions/{id}` — `delete_transaction` (`src/backend/main.py`).
Transfers: find the pair, pick source/destination by the `"→"` marker,
credit the source back, debit the destination back, delete both rows.
Otherwise: undo the single effect (guided by current category data) and
delete the row.  The returned `Nat` is the echoed id of the JSON reply. -/
def delete_transaction (db : DB) (transaction_id : Nat) :
    Except ApiError (DB × Nat) :=
  match findTransaction db transaction_id with
  | none => .error (.notFound "Transaction not found")
  | some txn =>
    if txn.is_transfer then
      let pair := findTransactionOpt db txn.transfer_pair_id
      let from_acc : Option Account :=
        if descrHasOutArrow txn.description then findAccount db txn.account_id
        else
          match pair with
          | some p => findAccount db p.account_id
          | none => none
      let to_acc : Option Account :=
        if descrHasOutArrow txn.description then
          match pair with
          | some p => findAccount db p.account_id
          | none => none
        else findAccount db txn.account_id
      let db1 := match from_acc with
        | some a => addBalance db a.id txn.amount
        | none => db
      let db2 := match to_acc with
        | some a => addBalance db1 a.id (-txn.amount)
        | none => db1
      let db3 := removeTxn db2 transaction_id
      .ok ((match pair with
        | some p => removeTxn db3 p.id
        | none => db3), transaction_id)
    else
      let cat_type :=
        match findCategoryOpt db txn.category_id with
        | some category => get_category_type db category
        | none => "expense"
      let step : Except ApiError DB :=
        if cat_type = "expense" then
          match findAccount db txn.account_id with
          | none => .error .serverError
          | some _ => .ok (addBalance db txn.account_id txn.amount)
        else if cat_type = "income" then
          match findAccount db txn.account_id with
          | none => .error .serverError
          | some _ => .ok (addBalance db txn.account_id (-txn.amount))
        else .ok db
      match step with
      | .error e => .error e
      | .ok db1 => .ok (removeTxn db1 transaction_id, transaction_id)

/-- Model of `schemas.TransferCreate`. -/
structure TransferCreate where
  from_account_id : Nat
  to_account_id : Nat
  amount : Int
deriving Repr, DecidableEq

/-- Endpoint `POST /transfers/` — `make_transfer` (`src/backend/main.py`): check the
source account (credit-limit or non-negative rule), debit it, credit the
destination, insert the two mutually-linked transfer legs with equal
timestamps, and return both resulting balances.  The two-phase id patching
(`flush`, insert, back-patch) collapses to its committed outcome. -/
def make_transfer (db : DB) (transfer : TransferCreate) (now : Nat) :
    Except ApiError (DB × Int × Int) :=
  match findAccount db transfer.from_account_id,
        findAccount db transfer.to_account_id with
  | some from_acc, some to_acc =>
    let new_balance := from_acc.balance - transfer.amount
    let proceed : Unit → Except ApiError (DB × Int × Int) := fun _ =>
      let db1 := setBalance db transfer.from_account_id new_balance
      let db2 := addBalance db1 transfer.to_account_id transfer.amount
      let outId := db2.nextTxnId
      let inId := db2.nextTxnId + 1
      let txn_out : Transaction :=
        { id := outId, amount := transfer.amount,
          description := some ("Transfer → " ++ to_acc.name),
          account_id := from_acc.id, category_id := none,
          is_transfer := true, transfer_pair_id := some inId, created_at := now }
      let txn_in : Transaction :=
        { id := inId, amount := transfer.amount,
          description := some ("Transfer ← " ++ from_acc.name),
          account_id := to_acc.id, category_id := none,
          is_transfer := true, transfer_pair_id := some outId, created_at := now }
      let db3 := { db2 with
                   transactions := db2.transactions ++ [txn_out, txn_in],
                   nextTxnId := db2.nextTxnId + 2 }
      .ok (db3,
        ((findAccount db3 transfer.from_account_id).map Account.balance).getD 0,
        ((findAccount db3 transfer.to_account_id).map Account.balance).getD 0)
    if from_acc.account_type = "credit" then
      if |new_balance| > from_acc.credit_limit then
        .error (.badRequest "Credit limit exceeded")
      else proceed ()
    else if new_balance < 0 then
      .error (.badRequest "Insufficient funds in sender account")
    else proceed ()
  | _, _ => .error (.notFound "One of the accounts not found")

/-! ## Rate limiter (`src/backend/redis_client.py`) -/

/-- The Redis state behind one `ratelimit:{client_ip}` key: the counter value
and its expiry (none = no expiry set, i.e. `TTL` returns −1). -/
structure RLEntry where
  count : Int
  expiry : Option Nat
deriving Repr, DecidableEq

/-- The dictionary returned by `check_rate_limit`. -/
structure RLResult where
  allowed : Bool
  current : Int
  limit : Int
  remaining : Int
deriving Repr, DecidableEq

/-- Models `INCR key`: creates the key at 1 (without expiry) or increments it. -/
def rlIncr : Option RLEntry → RLEntry
  | none => { count := 1, expiry := none }
  | some e => { e with count := e.count + 1 }

/-- Models `TTL key` right after the `INCR`: −1 when the (now existing) key has no
expiry, else the remaining seconds. -/
def rlTtl (e : RLEntry) : Int :=
  match e.expiry with
  | none => -1
  | some s => Int.ofNat s

/-- Model of `check_rate_limit` (`src/backend/redis_client.py`).  `redisUp = false`
models `redis.RedisError` being raised by the pipeline: the limiter fails
open and the store is untouched.  Otherwise: pipelined `INCR` + `TTL`, set
the expiry on a fresh window, and compare the post-increment count against
`max_requests`. -/
def check_rate_limit (redisUp : Bool) (store : Option RLEntry)
    (max_requests : Int) (window_seconds : Nat) : RLResult × Option RLEntry :=
  if redisUp then
    let e1 := rlIncr store
    let current_count := e1.count
    let current_ttl := rlTtl e1
    let e2 := if current_ttl = -1 then { e1 with expiry := some window_seconds } else e1
    ({ allowed := decide (current_count ≤ max_requests), current := current_count,
       limit := max_requests,
       remaining := max 0 (max_requests - current_count) }, some e2)
  else
    ({ allowed := true, current := 0, limit := max_requests,
       remaining := max_requests }, store)

/-! ## Well-formedness predicates -/

/-- Every stored transaction id is below the id sequence; holds for every
store reachable by the endpoints and keeps fresh ids genuinely fresh. -/
@[reducible]
def TxnIdsBelow (db : DB) : Prop := ∀ t ∈ db.transactions, t.id < db.nextTxnId

/-- A category `type` column as the application writes it: null, `"income"`
or `"expense"`. -/
@[reducible]
def WellTypedCat (t : Option String) : Prop :=
  t = none ∨ t = some "income" ∨ t = some "expense"

/-! ## Concrete stores for counterexamples and witnesses -/

/-- The empty store, with all id sequences at 1. -/
def db0 : DB :=
  { accounts := [], categories := [], transactions := [],
    nextAccountId := 1, nextCategoryId := 1, nextTxnId := 1 }

/-- C1 scenario: a credit account with limit 100 and balance 0. -/
def c1db1 : DB :=
  commitOf db0 (create_account db0
    { name := "CC", balance := 0, account_type := "credit", credit_limit := 100 })

/-- C1 scenario: plus an income root category. -/
def c1db2 : DB :=
  commitOf c1db1 (create_category c1db1 { name := "Salary", type := some "income" })

/-- C1 scenario: plus an income transaction of 1000 on the credit account. -/
def c1db3 : DB :=
  commitOf c1db2 (create_transaction c1db2
    { amount := 1000, account_id := 1, category_id := some 1 } 0)

/-- C2 scenario: a cash account with balance 100. -/
def c2db1 : DB :=
  commitOf db0 (create_account db0 { name := "Wallet", balance := 100 })

/-- C2 scenario: the account after `PUT /accounts/1` with balance −5. -/
def c2db2 : DB :=
  commitOf c2db1 (update_account c2db1 1 { name := "Wallet", balance := -5 })

/-- C5 scenario: a cash account whose name contains the arrow glyph. -/
def c5db1 : DB :=
  commitOf db0 (create_account db0 { name := "X→", balance := 100 })

/-- C5 scenario: plus a plain destination account. -/
def c5db2 : DB :=
  commitOf c5db1 (create_account c5db1 { name := "Y", balance := 0 })

/-- C5 scenario: after transferring 10 from `X→` to `Y` (legs 1 and 2). -/
def c5db3 : DB :=
  commitOf c5db2 (make_transfer c5db2
    { from_account_id := 1, to_account_id := 2, amount := 10 } 7)

/-- C5 scenario: after deleting the incoming leg (id 2). -/
def c5db4 : DB := commitOf c5db3 (delete_transaction c5db3 2)

/-- C10 scenario: source account. -/
def c10db1 : DB :=
  commitOf db0 (create_account db0 { name := "A", balance := 1000 })

/-- C10 scenario: plus destination account. -/
def c10db2 : DB :=
  commitOf c10db1 (create_account c10db1 { name := "B", balance := 500 })

/-- C10 scenario: plus a root expense category. -/
def c10db3 : DB :=
  commitOf c10db2 (create_category c10db2 { name := "Food" })

/-- C10 scenario: after transferring 300 from A to B (legs 1 and 2). -/
def c10db4 : DB :=
  commitOf c10db3 (make_transfer c10db3
    { from_account_id := 1, to_account_id := 2, amount := 300 } 3)

/-- A small populated store used to instantiate the general theorems. -/
def wdb : DB :=
  { accounts :=
      [{ id := 1, name := "Cash", balance := 1000, account_type := "cash",
         credit_limit := 0 },
       { id := 2, name := "CC", balance := 0, account_type := "credit",
         credit_limit := 5000 },
       { id := 3, name := "Card", balance := 500, account_type := "cash",
         credit_limit := 0 }],
    categories :=
      [{ id := 1, name := "Food", type := some "expense", parent_id := none },
       { id := 2, name := "Salary", type := some "income", parent_id := none },
       { id := 3, name := "Restaurants", type := none, parent_id := some 1 }],
    transactions := [], nextAccountId := 4, nextCategoryId := 4, nextTxnId := 1 }

/-- Store `wdb` plus one committed expense transaction of 200 on account 1. -/
def wdbt : DB :=
  { wdb with
    transactions :=
      [{ id := 1, amount := 200, description := none, account_id := 1,
         category_id := some 1, is_transfer := false, transfer_pair_id := none,
         created_at := 0 }],
    nextTxnId := 2 }

/-- Store `wdbt` after re-crediting the 200 of transaction 1: the reversal state
of an update of that transaction. -/
def wdbt1 : DB := addBalance wdbt 1 200

/-- Store `wdb` after a successful expense of 3000 on the credit account 2. -/
def w1db : DB :=
  commitOf wdb (create_transaction wdb
    { amount := 3000, account_id := 2, category_id := some 1 } 0)

/-- Store `wdb` after a successful expense of 200 on the cash account 1. -/
def w2db : DB :=
  commitOf wdb (create_transaction wdb
    { amount := 200, account_id := 1, category_id := some 1 } 0)

/-- Store `wdb` after a committed transfer of 300 from account 1 to account 3. -/
def w5db : DB := commitOf wdb (make_transfer wdb ⟨1, 3, 300⟩ 5)

/-! ## Lookup toolkit -/

/-- Fact: `find?` commutes with a `map` that preserves the predicate. -/
theorem find?_map_of_pres {α : Type} (p : α → Bool) (g : α → α)
    (hg : ∀ x, p (g x) = p x) :
    ∀ l : List α, (l.map g).find? p = (l.find? p).map g := by
  intro l
  induction l with
  | nil => rfl
  | cons a t ih =>
    cases h : p a
    · have h' : p (g a) = false := by rw [hg]; exact h
      simp [List.find?_cons, h, h', ih]
    · have h' : p (g a) = true := by rw [hg]; exact h
      simp [List.find?_cons, h, h']

/-- Fact: `find?` skips a prefix containing no match. -/
theorem find?_append_right {α : Type} (p : α → Bool) (l1 l2 : List α)
    (h : l1.find? p = none) : (l1 ++ l2).find? p = l2.find? p := by
  simp [List.find?_append, h]

/-- A successful account lookup pins the id. -/
theorem findAccount_id {db : DB} {i : Nat} {a : Account}
    (h : findAccount db i = some a) : a.id = i := by
  have := List.find?_some h
  simpa using this

/-- A successful transaction lookup pins the id. -/
theorem findTransaction_id {db : DB} {i : Nat} {t : Transaction}
    (h : findTransaction db i = some t) : t.id = i := by
  have := List.find?_some h
  simpa using this

/-- Account lookup after an id-preserving row update. -/
theorem findAccount_mapAccount (db : DB) (i j : Nat) (f : Account → Account)
    (hf : ∀ a, (f a).id = a.id) :
    findAccount (mapAccount db i f) j =
      (findAccount db j).map (fun a => if a.id == i then f a else a) := by
  unfold findAccount mapAccount
  exact find?_map_of_pres _ _
    (fun a => by by_cases h : (a.id == i) = true <;> simp [h, hf]) _

theorem findAccount_mapAccount_self {db : DB} {i : Nat} {a : Account}
    {f : Account → Account} (hf : ∀ x, (f x).id = x.id)
    (h : findAccount db i = some a) :
    findAccount (mapAccount db i f) i = some (f a) := by
  rw [findAccount_mapAccount db i i f hf, h]
  have hid : a.id = i := findAccount_id h
  simp [hid]

theorem findAccount_mapAccount_other {db : DB} {i j : Nat}
    {f : Account → Account} (hf : ∀ x, (f x).id = x.id) (hij : j ≠ i) :
    findAccount (mapAccount db i f) j = findAccount db j := by
  rw [findAccount_mapAccount db i j f hf]
  cases h : findAccount db j with
  | none => rfl
  | some a =>
    have hid : a.id = j := findAccount_id h
    simp [hid, hij]

theorem findAccount_setBalance_self {db : DB} {i : Nat} {a : Account} (b : Int)
    (h : findAccount db i = some a) :
    findAccount (setBalance db i b) i = some { a with balance := b } :=
  findAccount_mapAccount_self (fun _ => rfl) h

theorem findAccount_setBalance_other {db : DB} {i j : Nat} (b : Int)
    (hij : j ≠ i) :
    findAccount (setBalance db i b) j = findAccount db j :=
  findAccount_mapAccount_other (fun _ => rfl) hij

theorem findAccount_addBalance_self {db : DB} {i : Nat} {a : Account} (d : Int)
    (h : findAccount db i = some a) :
    findAccount (addBalance db i d) i = some { a with balance := a.balance + d } :=
  findAccount_mapAccount_self (fun _ => rfl) h

theorem findAccount_addBalance_other {db : DB} {i j : Nat} (d : Int)
    (hij : j ≠ i) :
    findAccount (addBalance db i d) j = findAccount db j :=
  findAccount_mapAccount_other (fun _ => rfl) hij

/-- Transaction lookup after an id-preserving transaction-row update. -/
theorem findTransaction_mapTxn (db : DB) (i j : Nat) (f : Transaction → Transaction)
    (hf : ∀ t, (f t).id = t.id) :
    findTransaction (mapTxn db i f) j =
      (findTransaction db j).map (fun t => if t.id == i then f t else t) := by
  unfold findTransaction mapTxn
  exact find?_map_of_pres _ _
    (fun t => by by_cases h : (t.id == i) = true <;> simp [h, hf]) _

/-- Category resolution only reads the categories table. -/
theorem get_category_type_congr {db db' : DB} (c : Category)
    (h : db.categories = db'.categories) :
    get_category_type db c = get_category_type db' c := by
  unfold get_category_type findCategoryOpt findCategory
  cases c.parent_id <;> simp [h]

/-- In a store with fresh ids, looking up an id at or past the sequence only
searches newly appended rows. -/
theorem findTransaction_append {db : DB} {l : List Transaction} {n i : Nat}
    (hfr : TxnIdsBelow db) (hi : db.nextTxnId ≤ i) :
    findTransaction { db with transactions := db.transactions ++ l, nextTxnId := n } i
      = l.find? (fun t => t.id == i) := by
  unfold findTransaction
  show (db.transactions ++ l).find? _ = _
  apply find?_append_right
  rw [List.find?_eq_none]
  intro x hx
  have hlt := hfr x hx
  simp only [beq_iff_eq]
  omega

/-! ## Operation characterizations -/

/-- Success of the expense path of `create_transaction`: the account is
debited and the row is inserted with a fresh id. -/
theorem create_transaction_expense_ok (db : DB) (tc : TransactionCreate)
    (now : Nat) (acc : Account) (cat : Category)
    (ha : findAccount db tc.account_id = some acc)
    (hc : findCategoryOpt db tc.category_id = some cat)
    (ht : get_category_type db cat = "expense")
    (hchk : if acc.account_type = "credit"
            then |acc.balance - tc.amount| ≤ acc.credit_limit
            else 0 ≤ acc.balance - tc.amount) :
    create_transaction db tc now =
      .ok ({ setBalance db tc.account_id (acc.balance - tc.amount) with
             transactions := db.transactions ++
               [{ id := db.nextTxnId, amount := tc.amount,
                  description := tc.description, account_id := tc.account_id,
                  category_id := tc.category_id, is_transfer := false,
                  transfer_pair_id := none,
                  created_at := tc.created_at.getD now }],
             nextTxnId := db.nextTxnId + 1 },
           { id := db.nextTxnId, amount := tc.amount,
             description := tc.description, account_id := tc.account_id,
             category_id := tc.category_id, is_transfer := false,
             transfer_pair_id := none, created_at := tc.created_at.getD now }) := by
  unfold create_transaction
  rw [ha, hc]
  by_cases hcr : acc.account_type = "credit"
  · rw [if_pos hcr] at hchk
    have hng : ¬ |acc.balance - tc.amount| > acc.credit_limit := not_lt.mpr hchk
    simp [ht, hcr, hng, setBalance, mapAccount]
  · rw [if_neg hcr] at hchk
    have hng : ¬ acc.balance - tc.amount < 0 := not_lt.mpr hchk
    simp [ht, hcr, hng, setBalance, mapAccount]

/-- Failed credit-limit check of the expense path of `create_transaction`. -/
theorem create_transaction_expense_err_credit (db : DB) (tc : TransactionCreate)
    (now : Nat) (acc : Account) (cat : Category)
    (ha : findAccount db tc.account_id = some acc)
    (hc : findCategoryOpt db tc.category_id = some cat)
    (ht : get_category_type db cat = "expense")
    (hcr : acc.account_type = "credit")
    (hgt : |acc.balance - tc.amount| > acc.credit_limit) :
    create_transaction db tc now = .error (.badRequest "Credit limit exceeded") := by
  unfold create_transaction
  rw [ha, hc]
  simp [ht, hcr, hgt]

/-- Failed non-negativity check of the expense path of `create_transaction`. -/
theorem create_transaction_expense_err_cash (db : DB) (tc : TransactionCreate)
    (now : Nat) (acc : Account) (cat : Category)
    (ha : findAccount db tc.account_id = some acc)
    (hc : findCategoryOpt db tc.category_id = some cat)
    (ht : get_category_type db cat = "expense")
    (hcr : ¬ acc.account_type = "credit")
    (hlt : acc.balance - tc.amount < 0) :
    create_transaction db tc now = .error (.badRequest "Insufficient funds") := by
  unfold create_transaction
  rw [ha, hc]
  simp [ht, hcr, hlt]

/-! ## Projection helpers -/

theorem setBalance_transactions (db : DB) (i : Nat) (b : Int) :
    (setBalance db i b).transactions = db.transactions := rfl

theorem setBalance_categories (db : DB) (i : Nat) (b : Int) :
    (setBalance db i b).categories = db.categories := rfl

theorem setBalance_nextTxnId (db : DB) (i : Nat) (b : Int) :
    (setBalance db i b).nextTxnId = db.nextTxnId := rfl

theorem addBalance_transactions (db : DB) (i : Nat) (d : Int) :
    (addBalance db i d).transactions = db.transactions := rfl

theorem addBalance_categories (db : DB) (i : Nat) (d : Int) :
    (addBalance db i d).categories = db.categories := rfl

theorem addBalance_nextTxnId (db : DB) (i : Nat) (d : Int) :
    (addBalance db i d).nextTxnId = db.nextTxnId := rfl

/-- Account lookup ignores the transaction table and the id sequence. -/
theorem findAccount_txnfields (db : DB) (l : List Transaction) (n j : Nat) :
    findAccount { db with transactions := l, nextTxnId := n } j
      = findAccount db j := rfl

/-- Account lookup ignores transaction-row rewrites. -/
theorem findAccount_mapTxn (db : DB) (i : Nat) (f : Transaction → Transaction)
    (j : Nat) : findAccount (mapTxn db i f) j = findAccount db j := rfl

/-- Account lookup ignores transaction-row deletion. -/
theorem findAccount_removeTxn (db : DB) (i j : Nat) :
    findAccount (removeTxn db i) j = findAccount db j := rfl

/-- Category lookup ignores account-row rewrites. -/
theorem findCategoryOpt_mapAccount (db : DB) (i : Nat) (f : Account → Account)
    (o : Option Nat) :
    findCategoryOpt (mapAccount db i f) o = findCategoryOpt db o := by
  cases o <;> rfl

/-! ## `make_transfer` characterizations -/

/-- Success of `make_transfer` between two distinct existing accounts. -/
theorem make_transfer_ok (db : DB) (tr : TransferCreate) (now : Nat)
    (fa ta : Account)
    (hf : findAccount db tr.from_account_id = some fa)
    (ht : findAccount db tr.to_account_id = some ta)
    (hne : tr.from_account_id ≠ tr.to_account_id)
    (hchk : if fa.account_type = "credit"
            then |fa.balance - tr.amount| ≤ fa.credit_limit
            else 0 ≤ fa.balance - tr.amount) :
    make_transfer db tr now =
      .ok ({ addBalance (setBalance db tr.from_account_id
               (fa.balance - tr.amount)) tr.to_account_id tr.amount with
             transactions := db.transactions ++
               [{ id := db.nextTxnId, amount := tr.amount,
                  description := some ("Transfer → " ++ ta.name),
                  account_id := fa.id, category_id := none, is_transfer := true,
                  transfer_pair_id := some (db.nextTxnId + 1), created_at := now },
                { id := db.nextTxnId + 1, amount := tr.amount,
                  description := some ("Transfer ← " ++ fa.name),
                  account_id := ta.id, category_id := none, is_transfer := true,
                  transfer_pair_id := some db.nextTxnId, created_at := now }],
             nextTxnId := db.nextTxnId + 2 },
           fa.balance - tr.amount, ta.balance + tr.amount) := by
  have hS1 : findAccount (addBalance (setBalance db tr.from_account_id
      (fa.balance - tr.amount)) tr.to_account_id tr.amount) tr.from_account_id
      = some { fa with balance := fa.balance - tr.amount } := by
    rw [findAccount_addBalance_other _ hne]
    exact findAccount_setBalance_self _ hf
  have hS2 : findAccount (addBalance (setBalance db tr.from_account_id
      (fa.balance - tr.amount)) tr.to_account_id tr.amount) tr.to_account_id
      = some { ta with balance := ta.balance + tr.amount } := by
    have h2 : findAccount (setBalance db tr.from_account_id
        (fa.balance - tr.amount)) tr.to_account_id = some ta := by
      rw [findAccount_setBalance_other _ (Ne.symm hne)]
      exact ht
    exact findAccount_addBalance_self _ h2
  unfold make_transfer
  rw [hf, ht]
  by_cases hcr : fa.account_type = "credit"
  · rw [if_pos hcr] at hchk
    have hng : ¬ |fa.balance - tr.amount| > fa.credit_limit := not_lt.mpr hchk
    simp [hcr, hng, findAccount_txnfields, hS1, hS2, setBalance_transactions,
      addBalance_transactions, setBalance_nextTxnId, addBalance_nextTxnId]
  · rw [if_neg hcr] at hchk
    have hng : ¬ fa.balance - tr.amount < 0 := not_lt.mpr hchk
    simp [hcr, hng, findAccount_txnfields, hS1, hS2, setBalance_transactions,
      addBalance_transactions, setBalance_nextTxnId, addBalance_nextTxnId]

/-- Lemma: `make_transfer` with a failing credit-limit check on the source. -/
theorem make_transfer_err_credit (db : DB) (tr : TransferCreate) (now : Nat)
    (fa ta : Account)
    (hf : findAccount db tr.from_account_id = some fa)
    (ht : findAccount db tr.to_account_id = some ta)
    (hcr : fa.account_type = "credit")
    (hgt : |fa.balance - tr.amount| > fa.credit_limit) :
    make_transfer db tr now = .error (.badRequest "Credit limit exceeded") := by
  unfold make_transfer
  rw [hf, ht]
  simp [hcr, hgt]

/-- Lemma: `make_transfer` with a failing non-negativity check on the source. -/
theorem make_transfer_err_cash (db : DB) (tr : TransferCreate) (now : Nat)
    (fa ta : Account)
    (hf : findAccount db tr.from_account_id = some fa)
    (ht : findAccount db tr.to_account_id = some ta)
    (hcr : ¬ fa.account_type = "credit")
    (hlt : fa.balance - tr.amount < 0) :
    make_transfer db tr now =
      .error (.badRequest "Insufficient funds in sender account") := by
  unfold make_transfer
  rw [hf, ht]
  simp [hcr, hlt]

/-! ## `update_transaction` and `delete_transaction` characterizations -/

/-- The reversal step when the old category resolves to an expense. -/
theorem reverseOld_expense (db : DB) (txn : Transaction) (cat : Category)
    (hcat : findCategoryOpt db txn.category_id = some cat)
    (ht : get_category_type db cat = "expense")
    (hacc : (findAccount db txn.account_id).isSome = true) :
    reverseOld db txn = .ok (addBalance db txn.account_id txn.amount) := by
  unfold reverseOld
  rw [hcat]
  cases h : findAccount db txn.account_id with
  | none => rw [h] at hacc; simp at hacc
  | some a => simp [ht, h]

/-- The reversal step when the old category reference is null: the default
`"expense"` branch re-credits the old amount. -/
theorem reverseOld_nullcat (db : DB) (txn : Transaction)
    (hcat : txn.category_id = none)
    (hacc : (findAccount db txn.account_id).isSome = true) :
    reverseOld db txn = .ok (addBalance db txn.account_id txn.amount) := by
  unfold reverseOld
  rw [hcat]
  cases h : findAccount db txn.account_id with
  | none => rw [h] at hacc; simp at hacc
  | some a => simp [findCategoryOpt, h]

/-- Success of `update_transaction` when the merged row lands on an expense
category and the apply-step check passes. -/
theorem update_transaction_expense_ok (db : DB) (i : Nat) (p : TransactionUpdate)
    (txn : Transaction) (db1 : DB) (na : Account) (nc : Category)
    (htxn : findTransaction db i = some txn)
    (hrev : reverseOld db txn = .ok db1)
    (hna : findAccount db1 (mergeTxn txn p).account_id = some na)
    (hnc : findCategoryOpt db1 (mergeTxn txn p).category_id = some nc)
    (hnt : get_category_type db1 nc = "expense")
    (hchk : if na.account_type = "credit"
            then |na.balance - (mergeTxn txn p).amount| ≤ na.credit_limit
            else 0 ≤ na.balance - (mergeTxn txn p).amount) :
    update_transaction db i p =
      .ok (mapTxn (setBalance db1 (mergeTxn txn p).account_id
             (na.balance - (mergeTxn txn p).amount)) i (fun _ => mergeTxn txn p),
           mergeTxn txn p) := by
  unfold update_transaction
  rw [htxn]
  by_cases hcr : na.account_type = "credit"
  · rw [if_pos hcr] at hchk
    have hng : ¬ |na.balance - (mergeTxn txn p).amount| > na.credit_limit :=
      not_lt.mpr hchk
    simp [hrev, hna, hnc, hnt, hcr, hng]
  · rw [if_neg hcr] at hchk
    have hng : ¬ na.balance - (mergeTxn txn p).amount < 0 := not_lt.mpr hchk
    simp [hrev, hna, hnc, hnt, hcr, hng]

/-- Lemma: `update_transaction` aborts with 404 when the merged account or category
does not resolve; nothing (in particular not the reversal) is committed. -/
theorem update_transaction_err_notfound (db : DB) (i : Nat)
    (p : TransactionUpdate) (txn : Transaction) (db1 : DB)
    (htxn : findTransaction db i = some txn)
    (hrev : reverseOld db txn = .ok db1)
    (h : findAccount db1 (mergeTxn txn p).account_id = none ∨
         findCategoryOpt db1 (mergeTxn txn p).category_id = none) :
    update_transaction db i p = .error (.notFound "Account or Category not found") := by
  unfold update_transaction
  rw [htxn]
  rcases h with h | h
  · simp [hrev, h]
  · cases ha : findAccount db1 (mergeTxn txn p).account_id <;> simp [hrev, h, ha]

/-- Lemma: `update_transaction` aborts when the merged expense breaks the credit
limit of the (merged) target account. -/
theorem update_transaction_err_credit (db : DB) (i : Nat) (p : TransactionUpdate)
    (txn : Transaction) (db1 : DB) (na : Account) (nc : Category)
    (htxn : findTransaction db i = some txn)
    (hrev : reverseOld db txn = .ok db1)
    (hna : findAccount db1 (mergeTxn txn p).account_id = some na)
    (hnc : findCategoryOpt db1 (mergeTxn txn p).category_id = some nc)
    (hnt : get_category_type db1 nc = "expense")
    (hcr : na.account_type = "credit")
    (hgt : |na.balance - (mergeTxn txn p).amount| > na.credit_limit) :
    update_transaction db i p = .error (.badRequest "Credit limit exceeded") := by
  unfold update_transaction
  rw [htxn]
  simp [hrev, hna, hnc, hnt, hcr, hgt]

/-- Lemma: `update_transaction` aborts when the merged expense would drive a
non-credit target account negative. -/
theorem update_transaction_err_cash (db : DB) (i : Nat) (p : TransactionUpdate)
    (txn : Transaction) (db1 : DB) (na : Account) (nc : Category)
    (htxn : findTransaction db i = some txn)
    (hrev : reverseOld db txn = .ok db1)
    (hna : findAccount db1 (mergeTxn txn p).account_id = some na)
    (hnc : findCategoryOpt db1 (mergeTxn txn p).category_id = some nc)
    (hnt : get_category_type db1 nc = "expense")
    (hcr : ¬ na.account_type = "credit")
    (hlt : na.balance - (mergeTxn txn p).amount < 0) :
    update_transaction db i p = .error (.badRequest "Insufficient funds") := by
  unfold update_transaction
  rw [htxn]
  simp [hrev, hna, hnc, hnt, hcr, hlt]

/-- Success of `delete_transaction` on a non-transfer row whose category
resolves to an expense: the amount is credited back and the row removed. -/
theorem delete_transaction_expense_ok (db : DB) (i : Nat) (txn : Transaction)
    (cat : Category)
    (htxn : findTransaction db i = some txn)
    (hnt : txn.is_transfer = false)
    (hcat : findCategoryOpt db txn.category_id = some cat)
    (hct : get_category_type db cat = "expense")
    (hacc : (findAccount db txn.account_id).isSome = true) :
    delete_transaction db i =
      .ok (removeTxn (addBalance db txn.account_id txn.amount) i, i) := by
  unfold delete_transaction
  rw [htxn]
  cases h : findAccount db txn.account_id with
  | none => rw [h] at hacc; simp at hacc
  | some a => simp [hnt, hcat, hct, h]

/-! ## String marker lemmas -/

theorem list_contains_append (l1 l2 : List Char) (c : Char) :
    (l1 ++ l2).contains c = (l1.contains c || l2.contains c) := by
  simp [List.contains, List.elem_eq_mem, List.mem_append, Bool.decide_or]

theorem string_contains_append (s t : String) (c : Char) :
    (s ++ t).data.contains c = (s.data.contains c || t.data.contains c) := by
  rw [String.data_append, list_contains_append]

/-- A non-null category lookup reaches into the categories table. -/
theorem findCategoryOpt_mem {db : DB} {o : Option Nat} {q : Category}
    (h : findCategoryOpt db o = some q) : q ∈ db.categories := by
  cases o with
  | none => simp [findCategoryOpt] at h
  | some j => exact List.mem_of_find?_eq_some h

/-! ## Claim theorems -/

/-- C8: for well-typed category records, effective-type resolution returns
`"income"` or `"expense"`, never unset: the category's own type when set,
else the parent's type (`"expense"` when the parent's type is unset),
else `"expense"`. -/
theorem C8_effective_type (db : DB) (c : Category)
    (hc : WellTypedCat c.type)
    (hall : ∀ q ∈ db.categories, WellTypedCat q.type) :
    (get_category_type db c = "income" ∨ get_category_type db c = "expense") ∧
    (∀ s, c.type = some s → s ≠ "" → get_category_type db c = s) ∧
    (∀ q s, c.type = none → findCategoryOpt db c.parent_id = some q →
       q.type = some s → s ≠ "" → get_category_type db c = s) ∧
    (∀ q, c.type = none → findCategoryOpt db c.parent_id = some q →
       q.type = none → get_category_type db c = "expense") ∧
    (c.type = none → findCategoryOpt db c.parent_id = none →
       get_category_type db c = "expense") := by
  refine ⟨?_, ?_, ?_, ?_, ?_⟩
  · rcases hc with h0 | h0 | h0
    · cases hp : findCategoryOpt db c.parent_id with
      | none => right; simp [get_category_type, truthyStr, h0, hp]
      | some q =>
        rcases hall q (findCategoryOpt_mem hp) with hq | hq | hq
        · right; simp [get_category_type, truthyStr, h0, hp, hq]
        · left; simp [get_category_type, truthyStr, h0, hp, hq]
        · right; simp [get_category_type, truthyStr, h0, hp, hq]
    · left; simp [get_category_type, truthyStr, h0]
    · right; simp [get_category_type, truthyStr, h0]
  · intro s hs hne
    simp [get_category_type, truthyStr, hs, hne]
  · intro q s h0 hp hq hne
    simp [get_category_type, truthyStr, h0, hp, hq, hne]
  · intro q h0 hp hq
    simp [get_category_type, truthyStr, h0, hp, hq]
  · intro h0 hp
    simp [get_category_type, truthyStr, h0, hp]

/-- C8 witness: the child category `Restaurants` of the expense root `Food`
in the concrete store `wdb` resolves to `"expense"`. -/
theorem C8_witness :
    (get_category_type wdb ⟨3, "Restaurants", none, some 1⟩ = "income" ∨
      get_category_type wdb ⟨3, "Restaurants", none, some 1⟩ = "expense") ∧
    (∀ s, (⟨3, "Restaurants", none, some 1⟩ : Category).type = some s → s ≠ "" →
      get_category_type wdb ⟨3, "Restaurants", none, some 1⟩ = s) ∧
    (∀ q s, (⟨3, "Restaurants", none, some 1⟩ : Category).type = none →
      findCategoryOpt wdb (⟨3, "Restaurants", none, some 1⟩ : Category).parent_id = some q →
      q.type = some s → s ≠ "" →
      get_category_type wdb ⟨3, "Restaurants", none, some 1⟩ = s) ∧
    (∀ q, (⟨3, "Restaurants", none, some 1⟩ : Category).type = none →
      findCategoryOpt wdb (⟨3, "Restaurants", none, some 1⟩ : Category).parent_id = some q →
      q.type = none →
      get_category_type wdb ⟨3, "Restaurants", none, some 1⟩ = "expense") ∧
    ((⟨3, "Restaurants", none, some 1⟩ : Category).type = none →
      findCategoryOpt wdb (⟨3, "Restaurants", none, some 1⟩ : Category).parent_id = none →
      get_category_type wdb ⟨3, "Restaurants", none, some 1⟩ = "expense") :=
  C8_effective_type wdb ⟨3, "Restaurants", none, some 1⟩ (by decide) (by decide)

/-- C9: whenever the pipelined store round trip succeeds, the limiter
reports `allowed = (post-increment count ≤ maxRequests)` and
`remaining = max 0 (maxRequests − count)`; on a store error it fails open
with `allowed = true` and `remaining = maxRequests`. -/
theorem C9_rate_limit (store : Option RLEntry) (mx : Int) (w : Nat) :
    ((check_rate_limit true store mx w).1.allowed
        = decide ((rlIncr store).count ≤ mx) ∧
     (check_rate_limit true store mx w).1.remaining
        = max 0 (mx - (rlIncr store).count)) ∧
    ((check_rate_limit false store mx w).1.allowed = true ∧
     (check_rate_limit false store mx w).1.remaining = mx) := by
  simp [check_rate_limit]

/-- C7: when the source-account check of `make_transfer` fails — credit
account over its limit, or cash/debit account going negative — the call
fails with the corresponding error and the committed store is unchanged:
no balance moves and no transaction row is created. -/
theorem C7_transfer_checks (db : DB) (tr : TransferCreate) (now : Nat)
    (fa ta : Account)
    (hf : findAccount db tr.from_account_id = some fa)
    (ht : findAccount db tr.to_account_id = some ta) :
    (fa.account_type = "credit" → |fa.balance - tr.amount| > fa.credit_limit →
       make_transfer db tr now = .error (.badRequest "Credit limit exceeded") ∧
       commitOf db (make_transfer db tr now) = db) ∧
    ((fa.account_type = "cash" ∨ fa.account_type = "debit") →
       fa.balance - tr.amount < 0 →
       make_transfer db tr now
         = .error (.badRequest "Insufficient funds in sender account") ∧
       commitOf db (make_transfer db tr now) = db) := by
  constructor
  · intro hcr hgt
    have he := make_transfer_err_credit db tr now fa ta hf ht hcr hgt
    exact ⟨he, by rw [he]; rfl⟩
  · intro hk hlt
    have hcr : ¬ fa.account_type = "credit" := by
      rcases hk with h | h <;> simp [h]
    have he := make_transfer_err_cash db tr now fa ta hf ht hcr hlt
    exact ⟨he, by rw [he]; rfl⟩

/-- C7 witness: transferring 6000 out of the credit account of `wdb`
(limit 5000, balance 0) fails with the credit-limit error and leaves the
store unchanged. -/
theorem C7_witness :
    make_transfer wdb ⟨2, 1, 6000⟩ 0 = .error (.badRequest "Credit limit exceeded") ∧
    commitOf wdb (make_transfer wdb ⟨2, 1, 6000⟩ 0) = wdb :=
  (C7_transfer_checks wdb ⟨2, 1, 6000⟩ 0
      ⟨2, "CC", 0, "credit", 5000⟩ ⟨1, "Cash", 1000, "cash", 0⟩
      (by decide) (by decide)).1 (by decide) (by decide)

/-- C6: if the apply step of `update_transaction` fails — merged account or
category unresolved, credit limit exceeded, or insufficient funds — the call
returns the corresponding error and the committed store is unchanged: the
reversal is not persisted, no balance changes, and the row keeps its old
fields. -/
theorem C6_update_abort (db : DB) (i : Nat) (p : TransactionUpdate)
    (txn : Transaction) (db1 : DB)
    (htxn : findTransaction db i = some txn)
    (hrev : reverseOld db txn = .ok db1) :
    (findAccount db1 (mergeTxn txn p).account_id = none ∨
        findCategoryOpt db1 (mergeTxn txn p).category_id = none →
      update_transaction db i p = .error (.notFound "Account or Category not found") ∧
      commitOf db (update_transaction db i p) = db) ∧
    (∀ na nc, findAccount db1 (mergeTxn txn p).account_id = some na →
      findCategoryOpt db1 (mergeTxn txn p).category_id = some nc →
      get_category_type db1 nc = "expense" → na.account_type = "credit" →
      |na.balance - (mergeTxn txn p).amount| > na.credit_limit →
      update_transaction db i p = .error (.badRequest "Credit limit exceeded") ∧
      commitOf db (update_transaction db i p) = db) ∧
    (∀ na nc, findAccount db1 (mergeTxn txn p).account_id = some na →
      findCategoryOpt db1 (mergeTxn txn p).category_id = some nc →
      get_category_type db1 nc = "expense" → ¬ na.account_type = "credit" →
      na.balance - (mergeTxn txn p).amount < 0 →
      update_transaction db i p = .error (.badRequest "Insufficient funds") ∧
      commitOf db (update_transaction db i p) = db) := by
  refine ⟨?_, ?_, ?_⟩
  · intro h
    have he := update_transaction_err_notfound db i p txn db1 htxn hrev h
    exact ⟨he, by rw [he]; rfl⟩
  · intro na nc hna hnc hnt hcr hgt
    have he := update_transaction_err_credit db i p txn db1 na nc htxn hrev hna hnc hnt hcr hgt
    exact ⟨he, by rw [he]; rfl⟩
  · intro na nc hna hnc hnt hcr hlt
    have he := update_transaction_err_cash db i p txn db1 na nc htxn hrev hna hnc hnt hcr hlt
    exact ⟨he, by rw [he]; rfl⟩

/-- C6 witness: raising the expense of transaction 1 in `wdbt` to 5000
(cash balance 1000, reversal state 1200) fails with insufficient funds and
leaves the committed store unchanged. -/
theorem C6_witness :
    update_transaction wdbt 1 { amount := some 5000 }
      = .error (.badRequest "Insufficient funds") ∧
    commitOf wdbt (update_transaction wdbt 1 { amount := some 5000 }) = wdbt :=
  (C6_update_abort wdbt 1 { amount := some 5000 }
      ⟨1, 200, none, 1, some 1, false, none, 0⟩ wdbt1 (by decide) rfl).2.2
    ⟨1, "Cash", 1200, "cash", 0⟩ ⟨1, "Food", some "expense", none⟩
    (by decide) (by decide) (by decide) (by decide) (by decide)

/-- C10 (amended): an update of a transaction whose category reference is
null (in particular a transfer leg) whose patch does not supply a category
fails with 404 after rolling back the in-progress reversal: balances and the
row are unchanged. -/
theorem C10_nullcat_update (db : DB) (i : Nat) (p : TransactionUpdate)
    (txn : Transaction)
    (htxn : findTransaction db i = some txn)
    (_hflag : txn.is_transfer = true)
    (hcat : txn.category_id = none)
    (hacc : (findAccount db txn.account_id).isSome = true)
    (hp : p.category_id = none) :
    update_transaction db i p = .error (.notFound "Account or Category not found") ∧
    commitOf db (update_transaction db i p) = db := by
  have hrev := reverseOld_nullcat db txn hcat hacc
  have hmerge : (mergeTxn txn p).category_id = none := by
    simp [mergeTxn, hp, hcat]
  have hnone : findCategoryOpt (addBalance db txn.account_id txn.amount)
      (mergeTxn txn p).category_id = none := by
    rw [hmerge]; rfl
  have he := update_transaction_err_notfound db i p txn _ htxn hrev (Or.inr hnone)
  exact ⟨he, by rw [he]; rfl⟩

/-- C10 witness: updating the outgoing leg of the committed transfer in
`c10db4` with a patch that supplies no category fails with 404 and changes
nothing. -/
theorem C10_witness :
    update_transaction c10db4 1 { amount := some 50 }
      = .error (.notFound "Account or Category not found") ∧
    commitOf c10db4 (update_transaction c10db4 1 { amount := some 50 }) = c10db4 :=
  C10_nullcat_update c10db4 1 { amount := some 50 }
    ⟨1, 300, some "Transfer → B", 1, none, true, some 2, 3⟩
    (by decide) (by decide) (by decide) (by decide) (by decide)

/-- C10 counterexample: the outgoing transfer leg of `c10db4` (transfer flag
set, null category) can be edited through the update endpoint after all —
a patch supplying an existing category id makes the post-merge lookup
resolve and the update succeed. -/
theorem C10_counterexample :
    (findTransaction c10db4 1).map (fun t => (t.is_transfer, t.category_id))
      = some (true, none) ∧
    exceptOk (update_transaction c10db4 1 { category_id := some 1 }) = true := by
  decide

/-- C1 (amended): the credit-limit constraint is enforced exactly at the
expense checkpoints — a committed expense creation, a committed expense
apply-step of an update, and the source of a committed transfer leave the
checked credit account within its limit.  (The invariant does not survive
arbitrary operation sequences, see the counterexample.) -/
theorem C1_credit_limit_checkpoints :
    (∀ db tc now acc cat db' t,
       findAccount db tc.account_id = some acc →
       findCategoryOpt db tc.category_id = some cat →
       get_category_type db cat = "expense" →
       acc.account_type = "credit" →
       create_transaction db tc now = .ok (db', t) →
       (findAccount db' tc.account_id).map Account.balance
           = some (acc.balance - tc.amount) ∧
       |acc.balance - tc.amount| ≤ acc.credit_limit) ∧
    (∀ db tr now fa r,
       findAccount db tr.from_account_id = some fa →
       fa.account_type = "credit" →
       make_transfer db tr now = .ok r →
       |fa.balance - tr.amount| ≤ fa.credit_limit) ∧
    (∀ db i p txn db1 na nc db' t2,
       findTransaction db i = some txn →
       reverseOld db txn = .ok db1 →
       findAccount db1 (mergeTxn txn p).account_id = some na →
       findCategoryOpt db1 (mergeTxn txn p).category_id = some nc →
       get_category_type db1 nc = "expense" →
       na.account_type = "credit" →
       update_transaction db i p = .ok (db', t2) →
       (findAccount db' (mergeTxn txn p).account_id).map Account.balance
           = some (na.balance - (mergeTxn txn p).amount) ∧
       |na.balance - (mergeTxn txn p).amount| ≤ na.credit_limit) := by
  refine ⟨?_, ?_, ?_⟩
  · intro db tc now acc cat db' t ha hc htype hcr h
    by_cases hle : |acc.balance - tc.amount| ≤ acc.credit_limit
    · have hok := create_transaction_expense_ok db tc now acc cat ha hc htype
        (by rw [if_pos hcr]; exact hle)
      rw [hok] at h
      injection h with h1
      injection h1 with h2 h3
      subst h2
      refine ⟨?_, hle⟩
      rw [findAccount_txnfields, findAccount_setBalance_self _ ha]
      rfl
    · have herr := create_transaction_expense_err_credit db tc now acc cat
        ha hc htype hcr (not_le.mp hle)
      rw [herr] at h
      exact absurd h (by simp)
  · intro db tr now fa r hf hcr h
    by_cases hle : |fa.balance - tr.amount| ≤ fa.credit_limit
    · exact hle
    · cases hta : findAccount db tr.to_account_id with
      | none =>
        unfold make_transfer at h
        rw [hf, hta] at h
        simp at h
      | some ta =>
        have herr := make_transfer_err_credit db tr now fa ta hf hta hcr
          (not_le.mp hle)
        rw [herr] at h
        exact absurd h (by simp)
  · intro db i p txn db1 na nc db' t2 htxn hrev hna hnc hnt hcr h
    by_cases hle : |na.balance - (mergeTxn txn p).amount| ≤ na.credit_limit
    · have hok := update_transaction_expense_ok db i p txn db1 na nc
        htxn hrev hna hnc hnt (by rw [if_pos hcr]; exact hle)
      rw [hok] at h
      injection h with h1
      injection h1 with h2 h3
      subst h2
      refine ⟨?_, hle⟩
      rw [findAccount_mapTxn, findAccount_setBalance_self _ hna]
      rfl
    · have herr := update_transaction_err_credit db i p txn db1 na nc
        htxn hrev hna hnc hnt hcr (not_le.mp hle)
      rw [herr] at h
      exact absurd h (by simp)

/-- C1 witness: a committed expense of 3000 on the credit account of `wdb`
(limit 5000) leaves it at −3000, within the limit. -/
theorem C1_witness :
    (findAccount w1db 2).map Account.balance = some ((0 : Int) - 3000) ∧
    |(0 : Int) - 3000| ≤ (5000 : Int) :=
  C1_credit_limit_checkpoints.1 wdb
    { amount := 3000, account_id := 2, category_id := some 1 } 0
    ⟨2, "CC", 0, "credit", 5000⟩ ⟨1, "Food", some "expense", none⟩ w1db
    ⟨1, 3000, none, 2, some 1, false, none, 0⟩
    (by decide) (by decide) (by decide) (by decide) rfl

/-- C1 counterexample: the claimed invariant `|balance| ≤ credit_limit` for
credit accounts does not hold after every committed sequence — an income
posting is unchecked: crediting 1000 to a credit account with limit 100
commits balance 1000. -/
theorem C1_counterexample :
    exceptOk (create_account db0
      { name := "CC", balance := 0, account_type := "credit", credit_limit := 100 }) = true ∧
    exceptOk (create_category c1db1 { name := "Salary", type := some "income" }) = true ∧
    exceptOk (create_transaction c1db2
      { amount := 1000, account_id := 1, category_id := some 1 } 0) = true ∧
    (findAccount c1db3 1).map (fun a => (a.account_type, a.balance, a.credit_limit))
      = some ("credit", 1000, 100) ∧
    ¬ |(1000 : Int)| ≤ (100 : Int) := by
  decide

/-- C2 (amended): the non-negativity constraint for cash/debit accounts is
enforced exactly at the expense checkpoints — a committed expense creation,
a committed expense apply-step of an update, and the source of a committed
transfer leave the checked cash/debit account non-negative.  (The invariant
does not survive arbitrary operation sequences, see the counterexample.) -/
theorem C2_nonnegative_checkpoints :
    (∀ db tc now acc cat db' t,
       findAccount db tc.account_id = some acc →
       findCategoryOpt db tc.category_id = some cat →
       get_category_type db cat = "expense" →
       (acc.account_type = "cash" ∨ acc.account_type = "debit") →
       create_transaction db tc now = .ok (db', t) →
       (findAccount db' tc.account_id).map Account.balance
           = some (acc.balance - tc.amount) ∧
       0 ≤ acc.balance - tc.amount) ∧
    (∀ db tr now fa r,
       findAccount db tr.from_account_id = some fa →
       (fa.account_type = "cash" ∨ fa.account_type = "debit") →
       make_transfer db tr now = .ok r →
       0 ≤ fa.balance - tr.amount) ∧
    (∀ db i p txn db1 na nc db' t2,
       findTransaction db i = some txn →
       reverseOld db txn = .ok db1 →
       findAccount db1 (mergeTxn txn p).account_id = some na →
       findCategoryOpt db1 (mergeTxn txn p).category_id = some nc →
       get_category_type db1 nc = "expense" →
       (na.account_type = "cash" ∨ na.account_type = "debit") →
       update_transaction db i p = .ok (db', t2) →
       (findAccount db' (mergeTxn txn p).account_id).map Account.balance
           = some (na.balance - (mergeTxn txn p).amount) ∧
       0 ≤ na.balance - (mergeTxn txn p).amount) := by
  refine ⟨?_, ?_, ?_⟩
  · intro db tc now acc cat db' t ha hc htype hk h
    have hcr : ¬ acc.account_type = "credit" := by
      rcases hk with hk | hk <;> simp [hk]
    by_cases hle : 0 ≤ acc.balance - tc.amount
    · have hok := create_transaction_expense_ok db tc now acc cat ha hc htype
        (by rw [if_neg hcr]; exact hle)
      rw [hok] at h
      injection h with h1
      injection h1 with h2 h3
      subst h2
      refine ⟨?_, hle⟩
      rw [findAccount_txnfields, findAccount_setBalance_self _ ha]
      rfl
    · have herr := create_transaction_expense_err_cash db tc now acc cat
        ha hc htype hcr (by omega)
      rw [herr] at h
      exact absurd h (by simp)
  · intro db tr now fa r hf hk h
    have hcr : ¬ fa.account_type = "credit" := by
      rcases hk with hk | hk <;> simp [hk]
    by_cases hle : 0 ≤ fa.balance - tr.amount
    · exact hle
    · cases hta : findAccount db tr.to_account_id with
      | none =>
        unfold make_transfer at h
        rw [hf, hta] at h
        simp at h
      | some ta =>
        have herr := make_transfer_err_cash db tr now fa ta hf hta hcr (by omega)
        rw [herr] at h
        exact absurd h (by simp)
  · intro db i p txn db1 na nc db' t2 htxn hrev hna hnc hnt hk h
    have hcr : ¬ na.account_type = "credit" := by
      rcases hk with hk | hk <;> simp [hk]
    by_cases hle : 0 ≤ na.balance - (mergeTxn txn p).amount
    · have hok := update_transaction_expense_ok db i p txn db1 na nc
        htxn hrev hna hnc hnt (by rw [if_neg hcr]; exact hle)
      rw [hok] at h
      injection h with h1
      injection h1 with h2 h3
      subst h2
      refine ⟨?_, hle⟩
      rw [findAccount_mapTxn, findAccount_setBalance_self _ hna]
      rfl
    · have herr := update_transaction_err_cash db i p txn db1 na nc
        htxn hrev hna hnc hnt hcr (by omega)
      rw [herr] at h
      exact absurd h (by simp)

/-- C2 witness: a committed expense of 200 on the cash account of `wdb`
(balance 1000) leaves it at 800 ≥ 0. -/
theorem C2_witness :
    (findAccount w2db 1).map Account.balance = some ((1000 : Int) - 200) ∧
    (0 : Int) ≤ (1000 : Int) - 200 :=
  C2_nonnegative_checkpoints.1 wdb
    { amount := 200, account_id := 1, category_id := some 1 } 0
    ⟨1, "Cash", 1000, "cash", 0⟩ ⟨1, "Food", some "expense", none⟩ w2db
    ⟨1, 200, none, 1, some 1, false, none, 0⟩
    (by decide) (by decide) (by decide) (by decide) rfl

/-- C2 counterexample: the claimed invariant `balance ≥ 0` for cash/debit
accounts does not hold after every committed sequence — the account-update
endpoint overwrites the balance without validation: `PUT /accounts/1` with
balance −5 commits a negative cash balance. -/
theorem C2_counterexample :
    exceptOk (create_account db0 { name := "Wallet", balance := 100 }) = true ∧
    exceptOk (update_account c2db1 1 { name := "Wallet", balance := -5 }) = true ∧
    (findAccount c2db2 1).map (fun a => (a.account_type, a.balance))
      = some ("cash", -5) ∧
    ¬ (0 : Int) ≤ (-5 : Int) := by
  decide

/-- C4: a transfer between two distinct existing accounts whose source check
passes debits the source by the amount, credits the destination, returns
both resulting balances, and appends exactly two transaction rows — both
transfer-flagged with null category and equal timestamps, referencing each
other as pair, the outgoing description carrying `→` and the incoming one
carrying `←`. -/
theorem C4_transfer_success (db : DB) (tr : TransferCreate) (now : Nat)
    (fa ta : Account)
    (hf : findAccount db tr.from_account_id = some fa)
    (ht : findAccount db tr.to_account_id = some ta)
    (hne : tr.from_account_id ≠ tr.to_account_id)
    (hchk : if fa.account_type = "credit"
            then |fa.balance - tr.amount| ≤ fa.credit_limit
            else 0 ≤ fa.balance - tr.amount) :
    ∃ db3,
      make_transfer db tr now
          = .ok (db3, fa.balance - tr.amount, ta.balance + tr.amount) ∧
      (findAccount db3 tr.from_account_id).map Account.balance
          = some (fa.balance - tr.amount) ∧
      (findAccount db3 tr.to_account_id).map Account.balance
          = some (ta.balance + tr.amount) ∧
      db3.transactions = db.transactions ++
        [{ id := db.nextTxnId, amount := tr.amount,
           description := some ("Transfer → " ++ ta.name), account_id := fa.id,
           category_id := none, is_transfer := true,
           transfer_pair_id := some (db.nextTxnId + 1), created_at := now },
         { id := db.nextTxnId + 1, amount := tr.amount,
           description := some ("Transfer ← " ++ fa.name), account_id := ta.id,
           category_id := none, is_transfer := true,
           transfer_pair_id := some db.nextTxnId, created_at := now }] ∧
      descrHasOutArrow (some ("Transfer → " ++ ta.name)) = true ∧
      ("Transfer ← " ++ fa.name).data.contains '←' = true := by
  refine ⟨_, make_transfer_ok db tr now fa ta hf ht hne hchk, ?_, ?_, rfl, ?_, ?_⟩
  · rw [findAccount_txnfields, findAccount_addBalance_other _ hne,
      findAccount_setBalance_self _ hf]
    rfl
  · have h2 : findAccount (setBalance db tr.from_account_id
        (fa.balance - tr.amount)) tr.to_account_id = some ta := by
      rw [findAccount_setBalance_other _ (Ne.symm hne)]
      exact ht
    rw [findAccount_txnfields, findAccount_addBalance_self _ h2]
    rfl
  · show ("Transfer → " ++ ta.name).data.contains '→' = true
    rw [string_contains_append]
    have harrow : "Transfer → ".data.contains '→' = true := by decide
    simp [harrow]
  · rw [string_contains_append]
    have harrow : "Transfer ← ".data.contains '←' = true := by decide
    simp [harrow]

/-- C4 witness: transferring 300 from the cash account 1 (balance 1000) to
account 3 (balance 500) of `wdb`. -/
theorem C4_witness :
    ∃ db3,
      make_transfer wdb ⟨1, 3, 300⟩ 5
          = .ok (db3, (1000 : Int) - 300, (500 : Int) + 300) ∧
      (findAccount db3 1).map Account.balance = some ((1000 : Int) - 300) ∧
      (findAccount db3 3).map Account.balance = some ((500 : Int) + 300) ∧
      db3.transactions = wdb.transactions ++
        [{ id := wdb.nextTxnId, amount := 300,
           description := some ("Transfer → " ++ "Card"), account_id := 1,
           category_id := none, is_transfer := true,
           transfer_pair_id := some (wdb.nextTxnId + 1), created_at := 5 },
         { id := wdb.nextTxnId + 1, amount := 300,
           description := some ("Transfer ← " ++ "Cash"), account_id := 3,
           category_id := none, is_transfer := true,
           transfer_pair_id := some wdb.nextTxnId, created_at := 5 }] ∧
      descrHasOutArrow (some ("Transfer → " ++ "Card")) = true ∧
      ("Transfer ← " ++ "Cash").data.contains '←' = true :=
  C4_transfer_success wdb ⟨1, 3, 300⟩ 5
    ⟨1, "Cash", 1000, "cash", 0⟩ ⟨3, "Card", 500, "cash", 0⟩
    (by decide) (by decide) (by decide) (by decide)

/-- The transaction table after a transaction-row rewrite. -/
theorem mapTxn_transactions (db : DB) (i : Nat) (f : Transaction → Transaction) :
    (mapTxn db i f).transactions
      = db.transactions.map (fun t => if t.id == i then f t else t) := rfl

/-- C3: against any store with fresh transaction ids, for an account with
balance `B` and a category with effective type expense (both checks
passing): creating a transaction of amount `A` commits balance `B − A`;
updating that transaction's amount to `A2` commits balance `B − A2` (the old
effect is reversed first, so not `B − A − A2`); deleting it restores `B`. -/
theorem C3_roundtrip (db : DB) (aid cid now : Nat) (acc : Account)
    (cat : Category) (A A2 : Int)
    (ha : findAccount db aid = some acc)
    (hc : findCategory db cid = some cat)
    (htype : get_category_type db cat = "expense")
    (hfr : TxnIdsBelow db)
    (hchk1 : if acc.account_type = "credit"
             then |acc.balance - A| ≤ acc.credit_limit
             else 0 ≤ acc.balance - A)
    (hchk2 : if acc.account_type = "credit"
             then |acc.balance - A2| ≤ acc.credit_limit
             else 0 ≤ acc.balance - A2) :
    ∃ db1 t db2 t2 db3,
      create_transaction db
          { amount := A, account_id := aid, category_id := some cid } now
          = .ok (db1, t) ∧
      (findAccount db1 aid).map Account.balance = some (acc.balance - A) ∧
      update_transaction db1 t.id { amount := some A2 } = .ok (db2, t2) ∧
      (findAccount db2 aid).map Account.balance = some (acc.balance - A2) ∧
      delete_transaction db2 t.id = .ok (db3, t.id) ∧
      (findAccount db3 aid).map Account.balance = some acc.balance := by
  have hcOpt : findCategoryOpt db (some cid) = some cat := hc
  have hno1 : List.find? (fun u => u.id == db.nextTxnId) db.transactions = none := by
    rw [List.find?_eq_none]
    intro x hx
    have := hfr x hx
    simp only [beq_iff_eq]
    omega
  -- Step 1: create.
  obtain ⟨db1, t0, hok1, ha1, ht1, hcats1, ht0eq⟩ :
      ∃ db1 t0,
        create_transaction db
            { amount := A, account_id := aid, category_id := some cid } now
            = .ok (db1, t0) ∧
        findAccount db1 aid = some { acc with balance := acc.balance - A } ∧
        findTransaction db1 db.nextTxnId = some t0 ∧
        db1.categories = db.categories ∧
        t0 = { id := db.nextTxnId, amount := A, description := none,
               account_id := aid, category_id := some cid, is_transfer := false,
               transfer_pair_id := none, created_at := now } := by
    refine ⟨_, _, create_transaction_expense_ok db
        ⟨A, none, aid, some cid, none⟩ now acc cat ha hcOpt htype hchk1,
      ?_, ?_, rfl, rfl⟩
    · rw [findAccount_txnfields]
      exact findAccount_setBalance_self _ ha
    · show (db.transactions ++ _).find? _ = _
      rw [find?_append_right _ _ _ hno1]
      simp
  subst ht0eq
  -- Step 2: update its amount to A2.
  obtain ⟨db2, t2, hok2, ha2, ht2, hcats2, ht2eq⟩ :
      ∃ db2 t2,
        update_transaction db1 db.nextTxnId { amount := some A2 }
            = .ok (db2, t2) ∧
        findAccount db2 aid
            = some { acc with balance := acc.balance - A + A - A2 } ∧
        findTransaction db2 db.nextTxnId = some t2 ∧
        db2.categories = db.categories ∧
        t2 = { id := db.nextTxnId, amount := A2, description := none,
               account_id := aid, category_id := some cid, is_transfer := false,
               transfer_pair_id := none, created_at := now } := by
    have hcat1 : findCategoryOpt db1 (some cid) = some cat := by
      show findCategory db1 cid = some cat
      unfold findCategory
      rw [hcats1]
      exact hc
    have htype1 : get_category_type db1 cat = "expense" :=
      (get_category_type_congr cat hcats1).trans htype
    have hrev1 : reverseOld db1
        { id := db.nextTxnId, amount := A, description := none,
          account_id := aid, category_id := some cid, is_transfer := false,
          transfer_pair_id := none, created_at := now }
        = .ok (addBalance db1 aid A) :=
      reverseOld_expense db1 _ cat hcat1 htype1 (by rw [ha1]; rfl)
    have hna1 : findAccount (addBalance db1 aid A) aid
        = some { acc with balance := acc.balance - A + A } := by
      rw [findAccount_addBalance_self _ ha1]
    have hnc1 : findCategoryOpt (addBalance db1 aid A) (some cid) = some cat := by
      show findCategory (addBalance db1 aid A) cid = some cat
      unfold findCategory
      rw [addBalance_categories, hcats1]
      exact hc
    have hnt1 : get_category_type (addBalance db1 aid A) cat = "expense" :=
      ((get_category_type_congr cat (addBalance_categories db1 aid A)).trans
        (get_category_type_congr cat hcats1)).trans htype
    have hchk2' : if acc.account_type = "credit"
        then |acc.balance - A + A - A2| ≤ acc.credit_limit
        else 0 ≤ acc.balance - A + A - A2 := by
      have e : acc.balance - A + A = acc.balance := by omega
      rw [e]
      exact hchk2
    refine ⟨_, _, update_transaction_expense_ok db1 db.nextTxnId
        { amount := some A2 } _ (addBalance db1 aid A)
        { acc with balance := acc.balance - A + A } cat
        ht1 hrev1 hna1 hnc1 hnt1 hchk2', ?_, ?_, ?_, rfl⟩
    · have hset := findAccount_setBalance_self (acc.balance - A + A - A2) hna1
      exact (findAccount_mapTxn _ _ _ _).trans hset
    · unfold findTransaction
      rw [mapTxn_transactions, setBalance_transactions, addBalance_transactions,
        find?_map_of_pres (fun (u : Transaction) => u.id == db.nextTxnId) _ ?hg]
      case hg =>
        intro x
        by_cases hx : (x.id == db.nextTxnId) = true <;> simp [hx, mergeTxn]
      rw [show List.find? (fun u => u.id == db.nextTxnId) db1.transactions
            = some { id := db.nextTxnId, amount := A, description := none,
                     account_id := aid, category_id := some cid,
                     is_transfer := false, transfer_pair_id := none,
                     created_at := now } from ht1]
      simp
    · exact hcats1
  subst ht2eq
  -- Step 3: delete it.
  obtain ⟨db3, hok3, ha3⟩ :
      ∃ db3,
        delete_transaction db2 db.nextTxnId = .ok (db3, db.nextTxnId) ∧
        findAccount db3 aid
            = some { acc with balance := acc.balance - A + A - A2 + A2 } := by
    have hcat2 : findCategoryOpt db2 (some cid) = some cat := by
      show findCategory db2 cid = some cat
      unfold findCategory
      rw [hcats2]
      exact hc
    have htype2 : get_category_type db2 cat = "expense" :=
      (get_category_type_congr cat hcats2).trans htype
    refine ⟨_, delete_transaction_expense_ok db2 db.nextTxnId _ cat
        ht2 rfl hcat2 htype2 (by rw [ha2]; rfl), ?_⟩
    rw [findAccount_removeTxn, findAccount_addBalance_self _ ha2]
  refine ⟨db1, _, db2, _, db3, hok1, ?_, hok2, ?_, hok3, ?_⟩
  · rw [ha1]
    rfl
  · rw [ha2]
    show some (acc.balance - A + A - A2) = some (acc.balance - A2)
    exact congrArg some (by omega)
  · rw [ha3]
    show some (acc.balance - A + A - A2 + A2) = some acc.balance
    exact congrArg some (by omega)

/-- C3 witness: on `wdb`, an expense of 200 on account 1 (balance 1000) with
category 1, updated to 300, then deleted. -/
theorem C3_witness :
    ∃ db1 t db2 t2 db3,
      create_transaction wdb
          { amount := 200, account_id := 1, category_id := some 1 } 0
          = .ok (db1, t) ∧
      (findAccount db1 1).map Account.balance = some ((1000 : Int) - 200) ∧
      update_transaction db1 t.id { amount := some 300 } = .ok (db2, t2) ∧
      (findAccount db2 1).map Account.balance = some ((1000 : Int) - 300) ∧
      delete_transaction db2 t.id = .ok (db3, t.id) ∧
      (findAccount db3 1).map Account.balance = some (1000 : Int) :=
  C3_roundtrip wdb 1 1 0 ⟨1, "Cash", 1000, "cash", 0⟩
    ⟨1, "Food", some "expense", none⟩ 200 300
    (by decide) (by decide) (by decide) (by decide) (by decide) (by decide)

/-- Transaction lookup in a store with replaced transaction table. -/
theorem findTransaction_txnfields (db : DB) (l : List Transaction) (n i : Nat) :
    findTransaction { db with transactions := l, nextTxnId := n } i
      = l.find? (fun t => t.id == i) := rfl

/-- C5 (amended): for a committed transfer whose two legs keep their original
descriptions, deleting either leg removes both rows and restores both
balances — provided the source account's name does not contain the `→`
glyph (the marker test misroutes the incoming leg otherwise, see the
counterexample). -/
theorem C5_delete_transfer_restore (db : DB) (tr : TransferCreate) (now : Nat)
    (fa ta : Account)
    (hf : findAccount db tr.from_account_id = some fa)
    (ht : findAccount db tr.to_account_id = some ta)
    (hne : tr.from_account_id ≠ tr.to_account_id)
    (hfr : TxnIdsBelow db)
    (hname : fa.name.data.contains '→' = false)
    (hchk : if fa.account_type = "credit"
            then |fa.balance - tr.amount| ≤ fa.credit_limit
            else 0 ≤ fa.balance - tr.amount) :
    ∀ db3 b1 b2, make_transfer db tr now = .ok (db3, b1, b2) →
      (∃ dbA, delete_transaction db3 db.nextTxnId = .ok (dbA, db.nextTxnId) ∧
        (findAccount dbA tr.from_account_id).map Account.balance
            = some fa.balance ∧
        (findAccount dbA tr.to_account_id).map Account.balance
            = some ta.balance ∧
        dbA.transactions = db.transactions) ∧
      (∃ dbB, delete_transaction db3 (db.nextTxnId + 1)
            = .ok (dbB, db.nextTxnId + 1) ∧
        (findAccount dbB tr.from_account_id).map Account.balance
            = some fa.balance ∧
        (findAccount dbB tr.to_account_id).map Account.balance
            = some ta.balance ∧
        dbB.transactions = db.transactions) := by
  intro db3 b1 b2 h
  rw [make_transfer_ok db tr now fa ta hf ht hne hchk] at h
  injection h with h1
  injection h1 with hS3 hbal
  have hfid : fa.id = tr.from_account_id := findAccount_id hf
  have htid : ta.id = tr.to_account_id := findAccount_id ht
  have hno_out : List.find? (fun u => u.id == db.nextTxnId) db.transactions
      = none := by
    rw [List.find?_eq_none]
    intro x hx
    have := hfr x hx
    simp only [beq_iff_eq]
    omega
  have hno_in : List.find? (fun u => u.id == db.nextTxnId + 1) db.transactions
      = none := by
    rw [List.find?_eq_none]
    intro x hx
    have := hfr x hx
    simp only [beq_iff_eq]
    omega
  have f1 : findTransaction db3 db.nextTxnId = some
      { id := db.nextTxnId, amount := tr.amount,
        description := some ("Transfer → " ++ ta.name), account_id := fa.id,
        category_id := none, is_transfer := true,
        transfer_pair_id := some (db.nextTxnId + 1), created_at := now } := by
    rw [← hS3, findTransaction_txnfields, find?_append_right _ _ _ hno_out]
    simp
  have f2 : findTransaction db3 (db.nextTxnId + 1) = some
      { id := db.nextTxnId + 1, amount := tr.amount,
        description := some ("Transfer ← " ++ fa.name), account_id := ta.id,
        category_id := none, is_transfer := true,
        transfer_pair_id := some db.nextTxnId, created_at := now } := by
    rw [← hS3, findTransaction_txnfields, find?_append_right _ _ _ hno_in]
    simp
  have f3 : findAccount db3 tr.from_account_id
      = some { fa with balance := fa.balance - tr.amount } := by
    rw [← hS3, findAccount_txnfields, findAccount_addBalance_other _ hne,
      findAccount_setBalance_self _ hf]
  have f4 : findAccount db3 tr.to_account_id
      = some { ta with balance := ta.balance + tr.amount } := by
    rw [← hS3, findAccount_txnfields]
    have h2 : findAccount (setBalance db tr.from_account_id
        (fa.balance - tr.amount)) tr.to_account_id = some ta := by
      rw [findAccount_setBalance_other _ (Ne.symm hne)]
      exact ht
    exact findAccount_addBalance_self _ h2
  have f5 : db3.transactions = db.transactions ++
      [{ id := db.nextTxnId, amount := tr.amount,
         description := some ("Transfer → " ++ ta.name), account_id := fa.id,
         category_id := none, is_transfer := true,
         transfer_pair_id := some (db.nextTxnId + 1), created_at := now },
       { id := db.nextTxnId + 1, amount := tr.amount,
         description := some ("Transfer ← " ++ fa.name), account_id := ta.id,
         category_id := none, is_transfer := true,
         transfer_pair_id := some db.nextTxnId, created_at := now }] := by
    rw [← hS3]
  have hA : descrHasOutArrow (some ("Transfer → " ++ ta.name)) = true := by
    show ("Transfer → " ++ ta.name).data.contains '→' = true
    rw [string_contains_append]
    have hl : "Transfer → ".data.contains '→' = true := by decide
    simp [hl]
  have hB : descrHasOutArrow (some ("Transfer ← " ++ fa.name)) = false := by
    show ("Transfer ← " ++ fa.name).data.contains '→' = false
    rw [string_contains_append, hname]
    have hl : "Transfer ← ".data.contains '→' = false := by decide
    rw [hl]
    rfl
  have e1 : db.transactions.filter (fun t => !(t.id == db.nextTxnId))
      = db.transactions := by
    rw [List.filter_eq_self]
    intro x hx
    have := hfr x hx
    simp only [Bool.not_eq_true', beq_eq_false_iff_ne]
    omega
  have e2 : db.transactions.filter (fun t => !(t.id == db.nextTxnId + 1))
      = db.transactions := by
    rw [List.filter_eq_self]
    intro x hx
    have := hfr x hx
    simp only [Bool.not_eq_true', beq_eq_false_iff_ne]
    omega
  rw [← hfid] at hne f3 ⊢
  rw [← htid] at hne f4 ⊢
  have g1 : findAccount (addBalance db3 fa.id tr.amount) ta.id
      = some { ta with balance := ta.balance + tr.amount } := by
    rw [findAccount_addBalance_other _ (Ne.symm hne)]
    exact f4
  constructor
  · -- delete the outgoing leg
    refine ⟨removeTxn (removeTxn (addBalance (addBalance db3 fa.id tr.amount)
        ta.id (-tr.amount)) db.nextTxnId) (db.nextTxnId + 1), ?_, ?_, ?_, ?_⟩
    · unfold delete_transaction
      rw [f1]
      simp only [findTransactionOpt, f1, f2, f3, f4, hA]
      rfl
    · rw [findAccount_removeTxn, findAccount_removeTxn,
        findAccount_addBalance_other _ hne, findAccount_addBalance_self _ f3]
      show some (fa.balance - tr.amount + tr.amount) = some fa.balance
      exact congrArg some (by omega)
    · rw [findAccount_removeTxn, findAccount_removeTxn,
        findAccount_addBalance_self _ g1]
      show some (ta.balance + tr.amount + -tr.amount) = some ta.balance
      exact congrArg some (by omega)
    · show ((db3.transactions.filter (fun t => !(t.id == db.nextTxnId))).filter
          (fun t => !(t.id == db.nextTxnId + 1))) = db.transactions
      rw [f5, List.filter_append, List.filter_append, e1, e2]
      simp
  · -- delete the incoming leg
    refine ⟨removeTxn (removeTxn (addBalance (addBalance db3 fa.id tr.amount)
        ta.id (-tr.amount)) (db.nextTxnId + 1)) db.nextTxnId, ?_, ?_, ?_, ?_⟩
    · unfold delete_transaction
      rw [f2]
      simp only [findTransactionOpt, f1, f2, f3, f4, hB]
      rfl
    · rw [findAccount_removeTxn, findAccount_removeTxn,
        findAccount_addBalance_other _ hne, findAccount_addBalance_self _ f3]
      show some (fa.balance - tr.amount + tr.amount) = some fa.balance
      exact congrArg some (by omega)
    · rw [findAccount_removeTxn, findAccount_removeTxn,
        findAccount_addBalance_self _ g1]
      show some (ta.balance + tr.amount + -tr.amount) = some ta.balance
      exact congrArg some (by omega)
    · show ((db3.transactions.filter (fun t => !(t.id == db.nextTxnId + 1))).filter
          (fun t => !(t.id == db.nextTxnId))) = db.transactions
      rw [f5, List.filter_append, List.filter_append, e2, e1]
      simp

/-- C5 witness: after the committed 300-transfer in `w5db` (accounts `Cash`
and `Card`, no arrow glyphs in names), deleting either leg restores balances
1000 and 500 and removes both rows. -/
theorem C5_witness :
    (∃ dbA, delete_transaction w5db 1 = .ok (dbA, 1) ∧
      (findAccount dbA 1).map Account.balance = some (1000 : Int) ∧
      (findAccount dbA 3).map Account.balance = some (500 : Int) ∧
      dbA.transactions = wdb.transactions) ∧
    (∃ dbB, delete_transaction w5db 2 = .ok (dbB, 2) ∧
      (findAccount dbB 1).map Account.balance = some (1000 : Int) ∧
      (findAccount dbB 3).map Account.balance = some (500 : Int) ∧
      dbB.transactions = wdb.transactions) :=
  C5_delete_transfer_restore wdb ⟨1, 3, 300⟩ 5
    ⟨1, "Cash", 1000, "cash", 0⟩ ⟨3, "Card", 500, "cash", 0⟩
    (by decide) (by decide) (by decide) (by decide) (by decide) (by decide)
    w5db 700 800 rfl

/-- C5 counterexample: with a source account named `X→`, both legs keep
their original descriptions, yet deleting the incoming leg of the committed
10-transfer does not restore the pre-transfer balances (100 and 0): the
`→` glyph inside `Transfer ← X→` misroutes the direction test and the
committed balances become 80 and 20. -/
theorem C5_counterexample :
    (findAccount c5db2 1).map (fun a => (a.name, a.balance))
      = some ("X→", 100) ∧
    (findAccount c5db2 2).map (fun a => (a.name, a.balance))
      = some ("Y", 0) ∧
    exceptOk (make_transfer c5db2 ⟨1, 2, 10⟩ 7) = true ∧
    (findTransaction c5db3 2).map
        (fun t => (t.is_transfer, t.transfer_pair_id, t.description))
      = some (true, some 1, some "Transfer ← X→") ∧
    (findTransaction c5db3 1).map (fun t => t.description)
      = some (some "Transfer → Y") ∧
    exceptOk (delete_transaction c5db3 2) = true ∧
    c5db4.transactions = [] ∧
    (findAccount c5db4 1).map Account.balance = some 80 ∧
    (findAccount c5db4 2).map Account.balance = some 20 ∧
    ¬ ((80 : Int) = 100 ∧ (20 : Int) = 0) := by
  decide
